import Mathlib

/-!
Shallow embedding of `verify_metrics.py` (ReFocus repository), a script that
computes binary-classification metrics (accuracy, precision, recall, F1,
confusion matrix) from a CSV of actual/predicted labels via scikit-learn,
prints a report, and writes a JSON artifact.

Labels are strings; a dataset is the ordered list of (actual, predicted)
pairs obtained by zipping the `actual_label` and `predicted_label` columns.
Floating-point results of the single divisions involved are modelled by
exact rationals, together with a NaN marker (`PyFloat.nan`) for the one
place scikit-learn produces NaN (mean of an empty array).  Exceptions
raised by the scikit-learn calls are modelled with `Except String`.

The embedded scikit-learn behaviours (stable across sklearn versions):
* `confusion_matrix(y_true, y_pred, labels=[pos, "No"])`: returns the 2x2
  zero matrix when the input is empty; raises `ValueError` when no entry of
  `labels` occurs in `y_true`; otherwise builds an index map
  `{label: position}` from `labels` (later duplicates overwrite earlier
  ones, so `labels=["No","No"]` maps "No" to index 1), drops every pair in
  which either side is not a key of that map, and counts the rest per cell.
* `accuracy_score(y_true, y_pred)`: the number of positions where the two
  arrays agree divided by the raw length; NaN on empty input (numpy mean of
  an empty slice).
* `precision_score` / `recall_score` / `f1_score` with `average="binary"`,
  `pos_label=pos`, `zero_division=0`: first the target check — if the set
  of distinct values occurring in either array has more than two elements
  the target is "multiclass" and a `ValueError` is raised; if it has at
  least two elements and `pos` is not among them a `ValueError` is raised.
  Otherwise precision = tp / (number of predictions equal to `pos`),
  recall = tp / (number of actuals equal to `pos`), where
  tp = number of pairs equal to (`pos`, `pos`); a zero denominator gives
  0.0.  f1 = 2·p·r/(p+r) from those two values, 0.0 when p+r = 0.
-/

abbrev Label := String

/-- A dataset row: (actual_label, predicted_label). -/
abbrev LabelPair := Label × Label

/-- The ordered list of label pairs extracted from the CSV. -/
abbrev Dataset := List LabelPair

/-- A Python float that is either NaN or an exact numeric value. -/
inductive PyFloat where
  | nan : PyFloat
  | val : ℚ → PyFloat
deriving DecidableEq

/-- The `confusion_matrix` sub-dictionary of the result of
`calculate_metrics` (source lines 57-62). -/
structure ConfusionMatrixDict where
  true_positive : ℕ
  true_negative : ℕ
  false_positive : ℕ
  false_negative : ℕ
deriving DecidableEq

/-- The dictionary returned by `calculate_metrics` (source lines 52-68). -/
structure MetricsResult where
  accuracy : PyFloat
  precision : ℚ
  «recall» : ℚ
  f1_score : ℚ
  confusion_matrix : ConfusionMatrixDict
  total_samples : ℕ
  tp : ℕ
  tn : ℕ
  fp : ℕ
  fn : ℕ
deriving DecidableEq

instance {ε α : Type} [DecidableEq ε] [DecidableEq α] :
    DecidableEq (Except ε α) := fun
  | .ok a, .ok b => decidable_of_iff (a = b) (by simp)
  | .error a, .error b => decidable_of_iff (a = b) (by simp)
  | .ok _, .error _ => .isFalse (by simp)
  | .error _, .ok _ => .isFalse (by simp)

/-- Embeds `sklearn.metrics.confusion_matrix(y_true, y_pred,
labels=[pos_label, "No"])` as called on source line 33, returning the four
cells in reading order `(cm00, cm01, cm10, cm11)`.  Empty input yields the
zero matrix; if no entry of `labels` occurs in `y_true` a `ValueError` is
raised; when `pos_label = "No"` the duplicate label list collapses (both
occurrences of "No" map to index 1), so only cell (1,1) can be non-zero. -/
def sk_confusion_matrix (ds : Dataset) (pos : Label) :
    Except String (ℕ × ℕ × ℕ × ℕ) :=
  if ds.length = 0 then .ok (0, 0, 0, 0)
  else if ¬ (pos ∈ ds.map Prod.fst ∨ "No" ∈ ds.map Prod.fst) then
    .error "At least one label specified must be in y_true"
  else if pos = "No" then
    .ok (0, 0, 0, ds.countP fun x => x.1 == "No" && x.2 == "No")
  else
    .ok (ds.countP (fun x => x.1 == pos && x.2 == pos),
         ds.countP (fun x => x.1 == pos && x.2 == "No"),
         ds.countP (fun x => x.1 == "No" && x.2 == pos),
         ds.countP (fun x => x.1 == "No" && x.2 == "No"))

/-- The distinct label values occurring on either side of the dataset
(sklearn `unique_labels(y_true, y_pred)`; order is irrelevant, only
membership and cardinality are used). -/
def presentLabels (ds : Dataset) : List Label :=
  (ds.map Prod.fst ++ ds.map Prod.snd).dedup

/-- Embeds the target-type check shared by `precision_score`,
`recall_score` and `f1_score` with `average="binary"` (sklearn
`_check_targets` plus `_check_set_wise_labels`): more than two distinct
label values make the target "multiclass", which is rejected; a binary
target whose two values do not include `pos_label` is rejected. -/
def sk_check_binary (ds : Dataset) (pos : Label) : Except String Unit :=
  if 2 < (presentLabels ds).length then
    .error "Target is multiclass but average binary was chosen"
  else if pos ∉ presentLabels ds ∧ 2 ≤ (presentLabels ds).length then
    .error "pos_label is not a valid label"
  else .ok ()

/-- Embeds `sklearn.metrics.accuracy_score(y_true, y_pred)` (source line
47): fraction of positions where the two arrays agree, over the raw
length; NaN on empty input. -/
def sk_accuracy_score (ds : Dataset) : PyFloat :=
  if ds.length = 0 then .nan
  else .val ((ds.countP fun x => x.1 == x.2 : ℚ) / (ds.length : ℚ))

/-- The numeric value computed by `precision_score(..., pos_label=pos,
zero_division=0)` once the target checks have passed: true positives over
the number of predictions equal to `pos`, 0 on a zero denominator. -/
def precisionValue (ds : Dataset) (pos : Label) : ℚ :=
  let tpSum := ds.countP fun x => x.1 == pos && x.2 == pos
  let predSum := ds.countP fun x => x.2 == pos
  if predSum = 0 then 0 else (tpSum : ℚ) / (predSum : ℚ)

/-- The numeric value computed by `recall_score(..., pos_label=pos,
zero_division=0)` once the target checks have passed: true positives over
the number of actuals equal to `pos`, 0 on a zero denominator. -/
def recallValue (ds : Dataset) (pos : Label) : ℚ :=
  let tpSum := ds.countP fun x => x.1 == pos && x.2 == pos
  let trueSum := ds.countP fun x => x.1 == pos
  if trueSum = 0 then 0 else (tpSum : ℚ) / (trueSum : ℚ)

/-- The numeric value computed by `f1_score(..., pos_label=pos,
zero_division=0)` once the target checks have passed: harmonic mean of the
precision and recall values, 0 when their sum is 0. -/
def f1Value (ds : Dataset) (pos : Label) : ℚ :=
  let p := precisionValue ds pos
  let r := recallValue ds pos
  if p + r = 0 then 0 else 2 * p * r / (p + r)

/-- Embeds `precision_score(y_true, y_pred, pos_label=pos,
zero_division=0)` (source line 48). -/
def sk_precision_score (ds : Dataset) (pos : Label) : Except String ℚ :=
  match sk_check_binary ds pos with
  | .error e => .error e
  | .ok _ => .ok (precisionValue ds pos)

/-- Embeds `recall_score(y_true, y_pred, pos_label=pos, zero_division=0)`
(source line 49). -/
def sk_recall_score (ds : Dataset) (pos : Label) : Except String ℚ :=
  match sk_check_binary ds pos with
  | .error e => .error e
  | .ok _ => .ok (recallValue ds pos)

/-- Embeds `f1_score(y_true, y_pred, pos_label=pos, zero_division=0)`
(source line 50). -/
def sk_f1_score (ds : Dataset) (pos : Label) : Except String ℚ :=
  match sk_check_binary ds pos with
  | .error e => .error e
  | .ok _ => .ok (f1Value ds pos)

/-- Embeds `calculate_metrics(y_true, y_pred, pos_label)` (source lines
23-68): confusion matrix first (line 33), then accuracy, precision,
recall, f1 (lines 47-50); any exception raised by a scikit-learn call
aborts the computation.  The `cm.shape == (2, 2)` guard on lines 41-44 is
always true because `labels` has size 2, so the four cells are read in
reading order as tp, fn, fp, tn.  `total_samples` is the raw input length
(line 63). -/
def calculate_metrics (ds : Dataset) (pos : Label) :
    Except String MetricsResult :=
  match sk_confusion_matrix ds pos with
  | .error e => .error e
  | .ok (tp, fn, fp, tn) =>
    match sk_precision_score ds pos with
    | .error e => .error e
    | .ok precision =>
      match sk_recall_score ds pos with
      | .error e => .error e
      | .ok rcl =>
        match sk_f1_score ds pos with
        | .error e => .error e
        | .ok f1 =>
          .ok { accuracy := sk_accuracy_score ds
                precision := precision
                «recall» := rcl
                f1_score := f1
                confusion_matrix :=
                  { true_positive := tp
                    true_negative := tn
                    false_positive := fp
                    false_negative := fn }
                total_samples := ds.length
                tp := tp, tn := tn, fp := fp, fn := fn }

/-- The replacement string of source line 173. -/
def jsonSuffix : List Char := "_python_metrics.json".toList

/-- Fuel-indexed worker for `csvReplace`; the fuel only serves to make the
recursion structural and is always called with at least the length of the
input, which the left-to-right scan never exhausts (each step consumes at
least one character). -/
def csvReplaceFuel : ℕ → List Char → List Char
  | 0, l => l
  | _ + 1, [] => []
  | fuel + 1, c :: rest =>
    if ['.', 'c', 's', 'v'].isPrefixOf (c :: rest) then
      jsonSuffix ++ csvReplaceFuel fuel (rest.drop 3)
    else c :: csvReplaceFuel fuel rest

/-- Embeds the Python expression
`csv_file.replace(".csv", "_python_metrics.json")` of source line 173:
every occurrence of ".csv", scanned left to right without overlap, is
replaced by "_python_metrics.json". -/
def csvReplace (l : List Char) : List Char :=
  csvReplaceFuel l.length l

/-- Whether ".csv" occurs in the character list (Python `".csv" in s`). -/
def hasCsv : List Char → Bool
  | [] => false
  | c :: rest => ['.', 'c', 's', 'v'].isPrefixOf (c :: rest) || hasCsv rest

/-- The path of the JSON artifact written by `main` (source line 173):
`output_file = csv_file.replace(".csv", "_python_metrics.json")`. -/
def output_file (csv_file : String) : String :=
  ⟨csvReplace csv_file.toList⟩

/-- The top-level keys, in order, of the dictionary serialized to the JSON
artifact by `json.dump(metrics, f)` (source lines 52-68 and 172-175). -/
def metricsDictKeys : List String :=
  ["accuracy", "precision", "recall", "f1_score", "confusion_matrix",
   "total_samples", "tp", "tn", "fp", "fn"]

/-- The keys of the nested `confusion_matrix` dictionary (source lines
57-62). -/
def confusionMatrixDictKeys : List String :=
  ["true_positive", "true_negative", "false_positive", "false_negative"]

/-- A parsed CSV table as produced by `pd.read_csv`: named columns of
string values.  Only the two label columns matter to the embedded
behaviour. -/
structure DataFrame where
  columns : List (String × List String)
deriving DecidableEq

/-- Column access `df[name]` modelled as association-list lookup. -/
def getColumn (df : DataFrame) (name : String) : Option (List String) :=
  (df.columns.find? fun c => c.1 == name).map Prod.snd

/-- Embeds `verify_csv_format(df)` (source lines 102-110): true exactly
when both required columns are present. -/
def verify_csv_format (df : DataFrame) : Bool :=
  ["actual_label", "predicted_label"].all fun c =>
    df.columns.any fun col => col.1 == c

/-- The dataset `main` feeds to `calculate_metrics`: the zip of the
`actual_label` and `predicted_label` columns (source lines 137-138 and
162; `pd.read_csv` guarantees the columns have equal length). -/
def datasetOf (df : DataFrame) : Dataset :=
  ((getColumn df "actual_label").getD []).zip
    ((getColumn df "predicted_label").getD [])

/-- Embeds the exit status of `main()` (source lines 112-187) over an
abstract file system mapping paths to parsed CSV tables (`none` models
`FileNotFoundError` from `pd.read_csv`): usage error when fewer than two
argv entries (line 113-121), missing file (line 180-182), missing columns
(line 133-134), an exception escaping `calculate_metrics` (caught on lines
183-187), and 0 (the implicit Python success status) otherwise.  The
printing, label-distribution and report steps (lines 141-178) raise no
exceptions and do not affect the exit status. -/
def main_exit (argv : List String) (fs : String → Option DataFrame) : ℕ :=
  if argv.length < 2 then 1
  else
    match argv[1]? with
    | none => 1
    | some csv_file =>
      match fs csv_file with
      | none => 1
      | some df =>
        if verify_csv_format df then
          match calculate_metrics (datasetOf df) "Yes" with
          | .ok _ => 0
          | .error _ => 1
        else 1

/-- A label pair both of whose sides lie in the valid domain
{"Yes", "No"} (the pairs the spec calls countable). -/
def validPair (x : LabelPair) : Bool :=
  (x.1 == "Yes" || x.1 == "No") && (x.2 == "Yes" || x.2 == "No")

/-- The number of pairs with valid labels on both sides (the quantity the
spec calls N). -/
def validCount (ds : Dataset) : ℕ :=
  ds.countP validPair

/-- The accuracy rule of claim C1 exactly as the spec states it:
accuracy = (tp + tn) / N with N the number of valid pairs, and 0.0 when
N = 0. -/
def accuracyClaim (ds : Dataset) : Prop :=
  ∀ r, calculate_metrics ds "Yes" = .ok r →
    r.accuracy = .val (if validCount ds = 0 then 0
      else ((r.tp + r.tn : ℕ) : ℚ) / (validCount ds : ℚ))

/-- The precision/recall rule of claim C4 exactly as the spec states it:
precision = tp / (tp + fp) and recall = tp / (tp + fn), each 0.0 on a
zero denominator. -/
def precisionRecallClaim (ds : Dataset) : Prop :=
  ∀ r, calculate_metrics ds "Yes" = .ok r →
    r.precision = (if r.tp + r.fp = 0 then 0
      else (r.tp : ℚ) / ((r.tp + r.fp : ℕ) : ℚ))
    ∧ r.«recall» = (if r.tp + r.fn = 0 then 0
      else (r.tp : ℚ) / ((r.tp + r.fn : ℕ) : ℚ))

/-- The counting rule of claim C10 exactly as stated, for a given
pos_label: tp counts (pos, pos) pairs, fn counts (pos, "No"), fp counts
("No", pos), tn counts ("No", "No"). -/
def confusionClaim (ds : Dataset) (pos : Label) : Prop :=
  ∀ r, calculate_metrics ds pos = .ok r →
    r.tp = ds.countP (fun x => x.1 == pos && x.2 == pos)
    ∧ r.fn = ds.countP (fun x => x.1 == pos && x.2 == "No")
    ∧ r.fp = ds.countP (fun x => x.1 == "No" && x.2 == pos)
    ∧ r.tn = ds.countP (fun x => x.1 == "No" && x.2 == "No")


/-- Inversion: a successful run of `calculate_metrics` determines every
field of the result in terms of the component computations. -/
theorem calculate_metrics_ok {ds : Dataset} {pos : Label}
    {r : MetricsResult} (h : calculate_metrics ds pos = .ok r) :
    sk_confusion_matrix ds pos = .ok (r.tp, r.fn, r.fp, r.tn)
    ∧ sk_check_binary ds pos = .ok ()
    ∧ r.accuracy = sk_accuracy_score ds
    ∧ r.precision = precisionValue ds pos
    ∧ r.«recall» = recallValue ds pos
    ∧ r.f1_score = f1Value ds pos
    ∧ r.confusion_matrix = ⟨r.tp, r.tn, r.fp, r.fn⟩
    ∧ r.total_samples = ds.length := by
  unfold calculate_metrics at h
  rcases hcm : sk_confusion_matrix ds pos with e | ⟨tp, fn, fp, tn⟩ <;>
    rw [hcm] at h
  · exact absurd h (by simp)
  · unfold sk_precision_score sk_recall_score sk_f1_score at h
    rcases hcb : sk_check_binary ds pos with e | u <;> rw [hcb] at h
    · exact absurd h (by simp)
    · cases u
      simp only [Except.ok.injEq] at h
      subst h
      exact ⟨rfl, rfl, rfl, rfl, rfl, rfl, rfl, rfl⟩

/-- Characterization of a successful `sk_confusion_matrix`: for a positive
label other than "No" the four cells are the four pair counts over the
label set `{pos, "No"}`; for `pos = "No"` the duplicated label list
collapses and only the last cell counts (the ("No","No") pairs). -/
theorem sk_confusion_matrix_ok {ds : Dataset} {pos : Label}
    {a b c d : ℕ} (h : sk_confusion_matrix ds pos = .ok (a, b, c, d)) :
    (pos ≠ "No" →
      a = ds.countP (fun x => x.1 == pos && x.2 == pos)
      ∧ b = ds.countP (fun x => x.1 == pos && x.2 == "No")
      ∧ c = ds.countP (fun x => x.1 == "No" && x.2 == pos)
      ∧ d = ds.countP (fun x => x.1 == "No" && x.2 == "No"))
    ∧ (pos = "No" →
      a = 0 ∧ b = 0 ∧ c = 0
      ∧ d = ds.countP (fun x => x.1 == "No" && x.2 == "No")) := by
  unfold sk_confusion_matrix at h
  split at h
  · have hds : ds = [] := List.length_eq_zero.mp (by assumption)
    subst hds
    simp only [Except.ok.injEq, Prod.mk.injEq] at h
    obtain ⟨ha, hb, hc, hd⟩ := h
    simp [← ha, ← hb, ← hc, ← hd, List.countP_nil]
  · split at h
    · exact absurd h (by simp)
    · split at h
      · simp only [Except.ok.injEq, Prod.mk.injEq] at h
        obtain ⟨ha, hb, hc, hd⟩ := h
        constructor
        · intro hpos
          exact absurd (by assumption) hpos
        · intro _
          exact ⟨ha.symm, hb.symm, hc.symm, hd.symm⟩
      · simp only [Except.ok.injEq, Prod.mk.injEq] at h
        obtain ⟨ha, hb, hc, hd⟩ := h
        constructor
        · intro _
          exact ⟨ha.symm, hb.symm, hc.symm, hd.symm⟩
        · intro hpos
          exact absurd hpos (by assumption)

/-- A string cannot test equal to both "Yes" and "No". -/
theorem yes_ne_no_elim {s : String} (h1 : (s == "Yes") = true)
    (h2 : (s == "No") = true) : False := by
  rw [eq_of_beq h1] at h2
  exact absurd h2 (by decide)

/-- Element-level split of the valid-pair indicator into the four
confusion cells. -/
theorem validBit (x : LabelPair) :
    (if validPair x = true then (1 : ℕ) else 0)
      = (if (x.1 == "Yes" && x.2 == "Yes") = true then 1 else 0)
        + (if (x.1 == "Yes" && x.2 == "No") = true then 1 else 0)
        + (if (x.1 == "No" && x.2 == "Yes") = true then 1 else 0)
        + (if (x.1 == "No" && x.2 == "No") = true then 1 else 0) := by
  by_cases h1 : x.1 = "Yes" <;> by_cases h2 : x.1 = "No" <;>
    by_cases h3 : x.2 = "Yes" <;> by_cases h4 : x.2 = "No" <;>
    simp_all [validPair]

/-- Dataset-level form of `validBit`. -/
theorem validCount_split (ds : Dataset) :
    validCount ds
      = ds.countP (fun x => x.1 == "Yes" && x.2 == "Yes")
        + ds.countP (fun x => x.1 == "Yes" && x.2 == "No")
        + ds.countP (fun x => x.1 == "No" && x.2 == "Yes")
        + ds.countP (fun x => x.1 == "No" && x.2 == "No") := by
  induction ds with
  | nil => rfl
  | cons x t ih =>
    simp only [validCount, List.countP_cons] at ih ⊢
    have hx := validBit x
    omega

/-- Element-level fact: for a valid pair, agreement of the two labels is
equivalent to landing in one of the two diagonal confusion cells. -/
theorem matchBit_of_valid {x : LabelPair} (hx : validPair x = true) :
    (if (x.1 == x.2) = true then (1 : ℕ) else 0)
      = (if (x.1 == "Yes" && x.2 == "Yes") = true then 1 else 0)
        + (if (x.1 == "No" && x.2 == "No") = true then 1 else 0) := by
  simp only [validPair, Bool.and_eq_true, Bool.or_eq_true,
    beq_iff_eq] at hx
  obtain ⟨h1 | h1, h2 | h2⟩ := hx <;> simp [h1, h2]

/-- On an all-valid dataset the number of agreeing pairs is the number of
("Yes","Yes") pairs plus the number of ("No","No") pairs. -/
theorem countP_match_of_valid {ds : Dataset}
    (h : ∀ x ∈ ds, validPair x = true) :
    ds.countP (fun x => x.1 == x.2)
      = ds.countP (fun x => x.1 == "Yes" && x.2 == "Yes")
        + ds.countP (fun x => x.1 == "No" && x.2 == "No") := by
  induction ds with
  | nil => rfl
  | cons x t ih =>
    have hx := matchBit_of_valid (h x (List.mem_cons_self x t))
    have ih := ih fun y hy => h y (List.mem_cons_of_mem x hy)
    simp only [List.countP_cons, ih]
    omega

/-- Element-level fact: for a valid pair, predicting "Yes" means landing
in the TP cell or the FP cell. -/
theorem predBit_of_valid {x : LabelPair} (hx : validPair x = true) :
    (if (x.2 == "Yes") = true then (1 : ℕ) else 0)
      = (if (x.1 == "Yes" && x.2 == "Yes") = true then 1 else 0)
        + (if (x.1 == "No" && x.2 == "Yes") = true then 1 else 0) := by
  simp only [validPair, Bool.and_eq_true, Bool.or_eq_true,
    beq_iff_eq] at hx
  obtain ⟨h1 | h1, h2 | h2⟩ := hx <;> simp [h1, h2]

/-- On an all-valid dataset the number of "Yes" predictions is tp + fp. -/
theorem countP_pred_of_valid {ds : Dataset}
    (h : ∀ x ∈ ds, validPair x = true) :
    ds.countP (fun x => x.2 == "Yes")
      = ds.countP (fun x => x.1 == "Yes" && x.2 == "Yes")
        + ds.countP (fun x => x.1 == "No" && x.2 == "Yes") := by
  induction ds with
  | nil => rfl
  | cons x t ih =>
    have hx := predBit_of_valid (h x (List.mem_cons_self x t))
    have ih := ih fun y hy => h y (List.mem_cons_of_mem x hy)
    simp only [List.countP_cons, ih]
    omega

/-- Element-level fact: for a valid pair, an actual "Yes" means landing in
the TP cell or the FN cell. -/
theorem actualBit_of_valid {x : LabelPair} (hx : validPair x = true) :
    (if (x.1 == "Yes") = true then (1 : ℕ) else 0)
      = (if (x.1 == "Yes" && x.2 == "Yes") = true then 1 else 0)
        + (if (x.1 == "Yes" && x.2 == "No") = true then 1 else 0) := by
  simp only [validPair, Bool.and_eq_true, Bool.or_eq_true,
    beq_iff_eq] at hx
  obtain ⟨h1 | h1, h2 | h2⟩ := hx <;> simp [h1, h2]

/-- On an all-valid dataset the number of "Yes" actuals is tp + fn. -/
theorem countP_actual_of_valid {ds : Dataset}
    (h : ∀ x ∈ ds, validPair x = true) :
    ds.countP (fun x => x.1 == "Yes")
      = ds.countP (fun x => x.1 == "Yes" && x.2 == "Yes")
        + ds.countP (fun x => x.1 == "Yes" && x.2 == "No") := by
  induction ds with
  | nil => rfl
  | cons x t ih =>
    have hx := actualBit_of_valid (h x (List.mem_cons_self x t))
    have ih := ih fun y hy => h y (List.mem_cons_of_mem x hy)
    simp only [List.countP_cons, ih]
    omega

/-- Permuting the dataset permutes the list of present labels. -/
theorem presentLabels_perm {ds₁ ds₂ : Dataset} (h : ds₁.Perm ds₂) :
    (presentLabels ds₁).Perm (presentLabels ds₂) :=
  ((h.map Prod.fst).append (h.map Prod.snd)).dedup

/-- The binary-target check only depends on the multiset of pairs. -/
theorem sk_check_binary_perm {ds₁ ds₂ : Dataset} (pos : Label)
    (h : ds₁.Perm ds₂) :
    sk_check_binary ds₁ pos = sk_check_binary ds₂ pos := by
  have hp := presentLabels_perm h
  simp only [sk_check_binary, hp.length_eq, hp.mem_iff]

/-- The confusion matrix only depends on the multiset of pairs. -/
theorem sk_confusion_matrix_perm {ds₁ ds₂ : Dataset} (pos : Label)
    (h : ds₁.Perm ds₂) :
    sk_confusion_matrix ds₁ pos = sk_confusion_matrix ds₂ pos := by
  simp only [sk_confusion_matrix, h.length_eq, h.countP_eq,
    (h.map Prod.fst).mem_iff]

/-- Accuracy only depends on the multiset of pairs. -/
theorem sk_accuracy_score_perm {ds₁ ds₂ : Dataset} (h : ds₁.Perm ds₂) :
    sk_accuracy_score ds₁ = sk_accuracy_score ds₂ := by
  simp only [sk_accuracy_score, h.length_eq, h.countP_eq]

/-- The precision value only depends on the multiset of pairs. -/
theorem precisionValue_perm {ds₁ ds₂ : Dataset} (pos : Label)
    (h : ds₁.Perm ds₂) :
    precisionValue ds₁ pos = precisionValue ds₂ pos := by
  simp only [precisionValue, h.countP_eq]

/-- The recall value only depends on the multiset of pairs. -/
theorem recallValue_perm {ds₁ ds₂ : Dataset} (pos : Label)
    (h : ds₁.Perm ds₂) :
    recallValue ds₁ pos = recallValue ds₂ pos := by
  simp only [recallValue, h.countP_eq]

/-- The f1 value only depends on the multiset of pairs. -/
theorem f1Value_perm {ds₁ ds₂ : Dataset} (pos : Label)
    (h : ds₁.Perm ds₂) :
    f1Value ds₁ pos = f1Value ds₂ pos := by
  simp only [f1Value, precisionValue_perm pos h, recallValue_perm pos h]

/-- The whole computation, error paths included, only depends on the
multiset of pairs. -/
theorem calculate_metrics_perm {ds₁ ds₂ : Dataset} (pos : Label)
    (h : ds₁.Perm ds₂) :
    calculate_metrics ds₁ pos = calculate_metrics ds₂ pos := by
  unfold calculate_metrics sk_precision_score sk_recall_score sk_f1_score
  rw [sk_confusion_matrix_perm pos h, sk_check_binary_perm pos h,
    precisionValue_perm pos h, recallValue_perm pos h, f1Value_perm pos h,
    sk_accuracy_score_perm h, h.length_eq]

/-- Claim C6: on the spec's concrete five-pair scenario the code returns
tp=1, fn=1, fp=1, tn=2, total_samples=5, accuracy=0.6 (= 3/5),
precision=0.5, recall=0.5, f1_score=0.5. -/
theorem c6_concrete_scenario :
    calculate_metrics
      [("Yes", "Yes"), ("Yes", "No"), ("No", "Yes"), ("No", "No"),
       ("No", "No")] "Yes" =
    .ok { accuracy := .val (3/5), precision := 1/2, «recall» := 1/2,
          f1_score := 1/2,
          confusion_matrix := { true_positive := 1, true_negative := 2,
                                false_positive := 1, false_negative := 1 },
          total_samples := 5, tp := 1, tn := 2, fp := 1, fn := 1 } := by
  norm_num +decide [calculate_metrics, sk_confusion_matrix,
    sk_precision_score, sk_recall_score, sk_f1_score, sk_check_binary,
    sk_accuracy_score, presentLabels, precisionValue, recallValue, f1Value,
    List.countP_cons, List.countP_nil]

/-- Claim C5: the returned f1_score is 2·precision·recall divided by
(precision + recall), computed from the returned precision and recall, and
0.0 when that sum is 0. -/
theorem c5_f1_formula (ds : Dataset) (pos : Label) (r : MetricsResult)
    (h : calculate_metrics ds pos = .ok r) :
    r.f1_score = (if r.precision + r.«recall» = 0 then 0
      else 2 * r.precision * r.«recall» / (r.precision + r.«recall»)) := by
  obtain ⟨_, _, _, hp, hr, hf, _, _⟩ := calculate_metrics_ok h
  rw [hf, hp, hr]
  rfl

/-- Witness for `c5_f1_formula` at the dataset [("Yes","Yes"),("Yes","No")]. -/
theorem c5_f1_witness :
    calculate_metrics [("Yes", "Yes"), ("Yes", "No")] "Yes"
      = .ok { accuracy := .val (1/2), precision := 1, «recall» := 1/2,
              f1_score := 2/3,
              confusion_matrix := { true_positive := 1, true_negative := 0,
                                    false_positive := 0,
                                    false_negative := 1 },
              total_samples := 2, tp := 1, tn := 0, fp := 0, fn := 1 }
    ∧ (2 : ℚ)/3 = (if (1 : ℚ) + 1/2 = 0 then 0
        else 2 * 1 * (1/2) / (1 + 1/2)) := by
  have hcalc : calculate_metrics [("Yes", "Yes"), ("Yes", "No")] "Yes"
      = .ok { accuracy := .val (1/2), precision := 1, «recall» := 1/2,
              f1_score := 2/3,
              confusion_matrix := { true_positive := 1, true_negative := 0,
                                    false_positive := 0,
                                    false_negative := 1 },
              total_samples := 2, tp := 1, tn := 0, fp := 0, fn := 1 } := by
    norm_num +decide [calculate_metrics, sk_confusion_matrix,
      sk_precision_score, sk_recall_score, sk_f1_score, sk_check_binary,
      sk_accuracy_score, presentLabels, precisionValue, recallValue,
      f1Value, List.countP_cons, List.countP_nil]
  exact ⟨hcalc, c5_f1_formula _ _ _ hcalc⟩

/-- Claim C3: for every successful run, tp + tn + fp + fn is at most
total_samples, with equality exactly when every pair has both labels in
{"Yes","No"}; and total_samples is the raw input length. -/
theorem c3_counts_bound (ds : Dataset) (r : MetricsResult)
    (h : calculate_metrics ds "Yes" = .ok r) :
    (r.tp + r.tn + r.fp + r.fn ≤ r.total_samples
      ∧ (r.tp + r.tn + r.fp + r.fn = r.total_samples
        ↔ ∀ x ∈ ds, validPair x = true))
    ∧ r.total_samples = ds.length := by
  obtain ⟨hcm, _, _, _, _, _, _, htot⟩ := calculate_metrics_ok h
  obtain ⟨ha, hb, hc, hd⟩ := (sk_confusion_matrix_ok hcm).1 (by decide)
  have hsplit := validCount_split ds
  have hvdef : validCount ds = ds.countP validPair := rfl
  have hle : ds.countP validPair ≤ ds.length := List.countP_le_length _
  refine ⟨⟨by omega, ?_, ?_⟩, htot⟩
  · intro hsum
    exact List.countP_eq_length.mp (by omega)
  · intro hv
    have := List.countP_eq_length.mpr hv
    omega

/-- Witness for `c3_counts_bound` at the dataset [("Yes","Maybe")], where
the inequality is strict because the pair is invalid. -/
theorem c3_counts_witness :
    calculate_metrics [("Yes", "Maybe")] "Yes"
      = .ok { accuracy := .val 0, precision := 0, «recall» := 0,
              f1_score := 0,
              confusion_matrix := { true_positive := 0, true_negative := 0,
                                    false_positive := 0,
                                    false_negative := 0 },
              total_samples := 1, tp := 0, tn := 0, fp := 0, fn := 0 }
    ∧ 0 + 0 + 0 + 0 ≤ 1 := by
  have hcalc : calculate_metrics [("Yes", "Maybe")] "Yes"
      = .ok { accuracy := .val 0, precision := 0, «recall» := 0,
              f1_score := 0,
              confusion_matrix := { true_positive := 0, true_negative := 0,
                                    false_positive := 0,
                                    false_negative := 0 },
              total_samples := 1, tp := 0, tn := 0, fp := 0, fn := 0 } := by
    norm_num +decide [calculate_metrics, sk_confusion_matrix,
      sk_precision_score, sk_recall_score, sk_f1_score, sk_check_binary,
      sk_accuracy_score, presentLabels, precisionValue, recallValue,
      f1Value, List.countP_cons, List.countP_nil]
  exact ⟨hcalc, (c3_counts_bound _ _ hcalc).1.1⟩

/-- Claim C1 counterexample: the spec's accuracy rule fails on the code at
the dataset [("Yes","Maybe"),("Yes","Yes")] (the code divides the number
of agreeing pairs, 1, by the raw length, 2, not (tp+tn)/N = 1/1) and at
the empty dataset (the code yields NaN, not 0.0). -/
theorem c1_accuracy_counterexample :
    ¬ accuracyClaim [("Yes", "Maybe"), ("Yes", "Yes")]
    ∧ ¬ accuracyClaim [] := by
  constructor
  · intro hcl
    have hcalc : calculate_metrics [("Yes", "Maybe"), ("Yes", "Yes")] "Yes"
        = .ok { accuracy := .val (1/2), precision := 1, «recall» := 1/2,
                f1_score := 2/3,
                confusion_matrix := { true_positive := 1,
                                      true_negative := 0,
                                      false_positive := 0,
                                      false_negative := 0 },
                total_samples := 2, tp := 1, tn := 0, fp := 0,
                fn := 0 } := by
      norm_num +decide [calculate_metrics, sk_confusion_matrix,
        sk_precision_score, sk_recall_score, sk_f1_score, sk_check_binary,
        sk_accuracy_score, presentLabels, precisionValue, recallValue,
        f1Value, List.countP_cons, List.countP_nil]
    have h := hcl _ hcalc
    norm_num +decide [validCount, validPair, List.countP_cons,
      List.countP_nil] at h
  · intro hcl
    have hcalc : calculate_metrics [] "Yes"
        = .ok { accuracy := .nan, precision := 0, «recall» := 0,
                f1_score := 0,
                confusion_matrix := { true_positive := 0,
                                      true_negative := 0,
                                      false_positive := 0,
                                      false_negative := 0 },
                total_samples := 0, tp := 0, tn := 0, fp := 0,
                fn := 0 } := by
      norm_num +decide [calculate_metrics, sk_confusion_matrix,
        sk_precision_score, sk_recall_score, sk_f1_score, sk_check_binary,
        sk_accuracy_score, presentLabels, precisionValue, recallValue,
        f1Value, List.countP_cons, List.countP_nil]
    have h := hcl _ hcalc
    norm_num +decide [validCount, validPair, List.countP_nil] at h

/-- Claim C1 (amended): the accuracy of a successful run is the number of
agreeing pairs divided by the raw dataset length, NaN on the empty
dataset; on an all-valid non-empty dataset this coincides with the spec's
(tp + tn) / N with N the number of valid pairs. -/
theorem c1_accuracy_amended (ds : Dataset) (r : MetricsResult)
    (h : calculate_metrics ds "Yes" = .ok r) :
    r.accuracy = (if ds.length = 0 then PyFloat.nan
      else .val ((ds.countP fun x => x.1 == x.2 : ℚ) / (ds.length : ℚ)))
    ∧ ((∀ x ∈ ds, validPair x = true) → ds.length ≠ 0 →
      r.accuracy = .val (((r.tp + r.tn : ℕ) : ℚ) / (validCount ds : ℚ))) := by
  obtain ⟨hcm, _, hacc, _, _, _, _, _⟩ := calculate_metrics_ok h
  obtain ⟨ha, hb, hc, hd⟩ := (sk_confusion_matrix_ok hcm).1 (by decide)
  constructor
  · rw [hacc]; rfl
  · intro hv hne
    have hvc : validCount ds = ds.length := List.countP_eq_length.mpr hv
    rw [hacc]
    unfold sk_accuracy_score
    rw [if_neg hne, countP_match_of_valid hv, hvc, ha, hd]

/-- Witness for `c1_accuracy_amended` at the all-valid dataset
[("Yes","No")]. -/
theorem c1_accuracy_witness :
    calculate_metrics [("Yes", "No")] "Yes"
      = .ok { accuracy := .val 0, precision := 0, «recall» := 0,
              f1_score := 0,
              confusion_matrix := { true_positive := 0, true_negative := 0,
                                    false_positive := 0,
                                    false_negative := 1 },
              total_samples := 1, tp := 0, tn := 0, fp := 0, fn := 1 }
    ∧ PyFloat.val 0
        = PyFloat.val (((0 + 0 : ℕ) : ℚ)
            / (validCount [("Yes", "No")] : ℚ)) := by
  have hcalc : calculate_metrics [("Yes", "No")] "Yes"
      = .ok { accuracy := .val 0, precision := 0, «recall» := 0,
              f1_score := 0,
              confusion_matrix := { true_positive := 0, true_negative := 0,
                                    false_positive := 0,
                                    false_negative := 1 },
              total_samples := 1, tp := 0, tn := 0, fp := 0, fn := 1 } := by
    norm_num +decide [calculate_metrics, sk_confusion_matrix,
      sk_precision_score, sk_recall_score, sk_f1_score, sk_check_binary,
      sk_accuracy_score, presentLabels, precisionValue, recallValue,
      f1Value, List.countP_cons, List.countP_nil]
  exact ⟨hcalc,
    (c1_accuracy_amended _ _ hcalc).2 (by decide) (by decide)⟩

/-- Claim C4 counterexample: the spec's precision rule fails on the code
at [("Maybe","Yes"),("Yes","Yes")]: tp = 1 and fp = 0, so the claim
demands precision 1, but the code divides tp by the number of all "Yes"
predictions (2, including the pair with the invalid actual label) and
returns 1/2. -/
theorem c4_counterexample :
    ¬ precisionRecallClaim [("Maybe", "Yes"), ("Yes", "Yes")] := by
  intro hcl
  have hcalc : calculate_metrics [("Maybe", "Yes"), ("Yes", "Yes")] "Yes"
      = .ok { accuracy := .val (1/2), precision := 1/2, «recall» := 1,
              f1_score := 2/3,
              confusion_matrix := { true_positive := 1, true_negative := 0,
                                    false_positive := 0,
                                    false_negative := 0 },
              total_samples := 2, tp := 1, tn := 0, fp := 0, fn := 0 } := by
    norm_num +decide [calculate_metrics, sk_confusion_matrix,
      sk_precision_score, sk_recall_score, sk_f1_score, sk_check_binary,
      sk_accuracy_score, presentLabels, precisionValue, recallValue,
      f1Value, List.countP_cons, List.countP_nil]
  have h1 := (hcl _ hcalc).1
  norm_num at h1

/-- Claim C4 (amended): for a successful run, precision is tp divided by
the number of pairs predicted "Yes" and recall is tp divided by the
number of pairs with actual "Yes" (0.0 on zero denominators); on an
all-valid dataset those denominators are tp + fp and tp + fn, giving the
spec's formulas. -/
theorem c4_precision_recall_amended (ds : Dataset) (r : MetricsResult)
    (h : calculate_metrics ds "Yes" = .ok r) :
    r.precision = (if ds.countP (fun x => x.2 == "Yes") = 0 then 0
      else (r.tp : ℚ) / (ds.countP (fun x => x.2 == "Yes") : ℚ))
    ∧ r.«recall» = (if ds.countP (fun x => x.1 == "Yes") = 0 then 0
      else (r.tp : ℚ) / (ds.countP (fun x => x.1 == "Yes") : ℚ))
    ∧ ((∀ x ∈ ds, validPair x = true) →
      r.precision = (if r.tp + r.fp = 0 then 0
        else (r.tp : ℚ) / ((r.tp + r.fp : ℕ) : ℚ))
      ∧ r.«recall» = (if r.tp + r.fn = 0 then 0
        else (r.tp : ℚ) / ((r.tp + r.fn : ℕ) : ℚ))) := by
  obtain ⟨hcm, _, _, hp, hr, _, _, _⟩ := calculate_metrics_ok h
  obtain ⟨ha, hb, hc, hd⟩ := (sk_confusion_matrix_ok hcm).1 (by decide)
  refine ⟨?_, ?_, ?_⟩
  · rw [hp, ha]; rfl
  · rw [hr, ha]; rfl
  · intro hv
    constructor
    · rw [hp, ha, hc]
      unfold precisionValue
      rw [countP_pred_of_valid hv]
    · rw [hr, ha, hb]
      unfold recallValue
      rw [countP_actual_of_valid hv]

/-- Witness for `c4_precision_recall_amended` at the all-valid dataset
[("Yes","Yes"),("No","Yes")]. -/
theorem c4_precision_recall_witness :
    calculate_metrics [("Yes", "Yes"), ("No", "Yes")] "Yes"
      = .ok { accuracy := .val (1/2), precision := 1/2, «recall» := 1,
              f1_score := 2/3,
              confusion_matrix := { true_positive := 1, true_negative := 0,
                                    false_positive := 1,
                                    false_negative := 0 },
              total_samples := 2, tp := 1, tn := 0, fp := 1, fn := 0 }
    ∧ (1 : ℚ)/2 = (if 1 + 1 = 0 then 0
        else ((1 : ℕ) : ℚ) / ((1 + 1 : ℕ) : ℚ)) := by
  have hcalc : calculate_metrics [("Yes", "Yes"), ("No", "Yes")] "Yes"
      = .ok { accuracy := .val (1/2), precision := 1/2, «recall» := 1,
              f1_score := 2/3,
              confusion_matrix := { true_positive := 1, true_negative := 0,
                                    false_positive := 1,
                                    false_negative := 0 },
              total_samples := 2, tp := 1, tn := 0, fp := 1, fn := 0 } := by
    norm_num +decide [calculate_metrics, sk_confusion_matrix,
      sk_precision_score, sk_recall_score, sk_f1_score, sk_check_binary,
      sk_accuracy_score, presentLabels, precisionValue, recallValue,
      f1Value, List.countP_cons, List.countP_nil]
  exact ⟨hcalc, ((c4_precision_recall_amended _ _ hcalc).2.2 (by decide)).1⟩

/-- Claim C10 counterexample: at pos_label = "No" the claimed counting
rule fails: on [("No","No")] the claim makes tp count the ("No","No")
pair (tp = 1), but the duplicated label list collapses in the code and
tp = 0 there. -/
theorem c10_counterexample : ¬ confusionClaim [("No", "No")] "No" := by
  intro hcl
  have hcalc : calculate_metrics [("No", "No")] "No"
      = .ok { accuracy := .val 1, precision := 1, «recall» := 1,
              f1_score := 1,
              confusion_matrix := { true_positive := 0, true_negative := 1,
                                    false_positive := 0,
                                    false_negative := 0 },
              total_samples := 1, tp := 0, tn := 1, fp := 0, fn := 0 } := by
    norm_num +decide [calculate_metrics, sk_confusion_matrix,
      sk_precision_score, sk_recall_score, sk_f1_score, sk_check_binary,
      sk_accuracy_score, presentLabels, precisionValue, recallValue,
      f1Value, List.countP_cons, List.countP_nil]
  exact absurd (hcl _ hcalc).1 (by decide)

/-- Claim C10 (amended): for a successful run with pos_label different
from "No" the confusion counts follow the claimed rule over the label set
{pos_label, "No"} (so pairs with a label outside it contribute to no
count); when pos_label = "No" the two labels coincide, tp = fn = fp = 0
and tn counts the ("No","No") pairs. -/
theorem c10_pos_label_amended (ds : Dataset) (pos : Label)
    (r : MetricsResult) (h : calculate_metrics ds pos = .ok r) :
    (pos ≠ "No" →
      r.tp = ds.countP (fun x => x.1 == pos && x.2 == pos)
      ∧ r.fn = ds.countP (fun x => x.1 == pos && x.2 == "No")
      ∧ r.fp = ds.countP (fun x => x.1 == "No" && x.2 == pos)
      ∧ r.tn = ds.countP (fun x => x.1 == "No" && x.2 == "No"))
    ∧ (pos = "No" →
      r.tp = 0 ∧ r.fn = 0 ∧ r.fp = 0
      ∧ r.tn = ds.countP (fun x => x.1 == "No" && x.2 == "No")) := by
  obtain ⟨hcm, _, _, _, _, _, _, _⟩ := calculate_metrics_ok h
  exact sk_confusion_matrix_ok hcm

/-- Witness for `c10_pos_label_amended` at [("Yes","No"),("No","Yes")]
with pos_label "Yes". -/
theorem c10_pos_label_witness :
    calculate_metrics [("Yes", "No"), ("No", "Yes")] "Yes"
      = .ok { accuracy := .val 0, precision := 0, «recall» := 0,
              f1_score := 0,
              confusion_matrix := { true_positive := 0, true_negative := 0,
                                    false_positive := 1,
                                    false_negative := 1 },
              total_samples := 2, tp := 0, tn := 0, fp := 1, fn := 1 }
    ∧ (0 : ℕ) = List.countP (fun x => x.1 == "Yes" && x.2 == "Yes")
        [("Yes", "No"), ("No", "Yes")] := by
  have hcalc : calculate_metrics [("Yes", "No"), ("No", "Yes")] "Yes"
      = .ok { accuracy := .val 0, precision := 0, «recall» := 0,
              f1_score := 0,
              confusion_matrix := { true_positive := 0, true_negative := 0,
                                    false_positive := 1,
                                    false_negative := 1 },
              total_samples := 2, tp := 0, tn := 0, fp := 1, fn := 1 } := by
    norm_num +decide [calculate_metrics, sk_confusion_matrix,
      sk_precision_score, sk_recall_score, sk_f1_score, sk_check_binary,
      sk_accuracy_score, presentLabels, precisionValue, recallValue,
      f1Value, List.countP_cons, List.countP_nil]
  exact ⟨hcalc,
    ((c10_pos_label_amended _ _ _ hcalc).1 (by decide)).1⟩

/-- Claim C2 (code bug): on the spec's own invalid-label scenario
[("Yes","Yes"),("Maybe","No")] the code does not merely warn and exclude
the invalid pair: the three distinct label values make scikit-learn's
precision_score reject the target as multiclass, `calculate_metrics`
raises, and `main` takes the fatal path (exit 1) instead of completing
the report. -/
theorem c2_invalid_label_aborts :
    calculate_metrics [("Yes", "Yes"), ("Maybe", "No")] "Yes"
      = .error "Target is multiclass but average binary was chosen"
    ∧ main_exit ["verify_metrics.py", "data.csv"]
        (fun p => if p = "data.csv" then
          some { columns := [("actual_label", ["Yes", "Maybe"]),
                             ("predicted_label", ["Yes", "No"])] }
          else none) = 1 := by
  constructor
  · norm_num +decide [calculate_metrics, sk_confusion_matrix,
      sk_precision_score, sk_recall_score, sk_f1_score, sk_check_binary,
      sk_accuracy_score, presentLabels, precisionValue, recallValue,
      f1Value, List.countP_cons, List.countP_nil]
  · norm_num +decide [main_exit, verify_csv_format, datasetOf, getColumn,
      calculate_metrics, sk_confusion_matrix, sk_precision_score,
      sk_recall_score, sk_f1_score, sk_check_binary, sk_accuracy_score,
      presentLabels, precisionValue, recallValue, f1Value,
      List.countP_cons, List.countP_nil]

/-- Claim C9: the computation (error paths included) returns the same
result on any permutation of the dataset: every aggregate it uses is
order-independent. -/
theorem c9_order_invariance (ds₁ ds₂ : Dataset) (pos : Label)
    (h : ds₁.Perm ds₂) :
    calculate_metrics ds₁ pos = calculate_metrics ds₂ pos :=
  calculate_metrics_perm pos h

/-- Witness for `c9_order_invariance` on a two-element swap. -/
theorem c9_order_invariance_witness :
    calculate_metrics [("Yes", "No"), ("No", "No")] "Yes"
      = calculate_metrics [("No", "No"), ("Yes", "No")] "Yes" :=
  c9_order_invariance _ _ _ (by decide)

/-- With any amount of fuel, the replacement scan leaves a list without
".csv" unchanged. -/
theorem csvReplaceFuel_id (fuel : ℕ) (l : List Char)
    (h : hasCsv l = false) : csvReplaceFuel fuel l = l := by
  induction fuel generalizing l with
  | zero => rfl
  | succ n ih =>
    cases l with
    | nil => rfl
    | cons c rest =>
      unfold hasCsv at h
      rw [Bool.or_eq_false_iff] at h
      unfold csvReplaceFuel
      rw [if_neg (by simp [h.1]), ih rest h.2]

/-- The replacement scan never shortens its input (the replacement string
is longer than the pattern). -/
theorem length_le_csvReplaceFuel (fuel : ℕ) (l : List Char)
    (hf : l.length ≤ fuel) :
    l.length ≤ (csvReplaceFuel fuel l).length := by
  induction fuel generalizing l with
  | zero =>
    unfold csvReplaceFuel
    exact le_rfl
  | succ n ih =>
    cases l with
    | nil => simp [csvReplaceFuel]
    | cons c rest =>
      unfold csvReplaceFuel
      split
      · have hdrop : (rest.drop 3).length = rest.length - 3 :=
          List.length_drop 3 rest
        have hfd : (rest.drop 3).length ≤ n := by
          simp only [List.length_cons] at hf
          omega
        have hrec := ih (rest.drop 3) hfd
        have h20 : jsonSuffix.length = 20 := by decide
        simp only [List.length_append, List.length_cons]
        omega
      · have hfd : rest.length ≤ n := by
          simp only [List.length_cons] at hf
          omega
        have hrec := ih rest hfd
        simp only [List.length_cons]
        omega

/-- When ".csv" occurs, the replacement scan strictly lengthens its
input. -/
theorem length_lt_csvReplaceFuel (fuel : ℕ) (l : List Char)
    (hf : l.length ≤ fuel) (h : hasCsv l = true) :
    l.length < (csvReplaceFuel fuel l).length := by
  induction fuel generalizing l with
  | zero =>
    cases l with
    | nil => simp [hasCsv] at h
    | cons c rest => simp at hf
  | succ n ih =>
    cases l with
    | nil => simp [hasCsv] at h
    | cons c rest =>
      unfold csvReplaceFuel
      split
      · have hdrop : (rest.drop 3).length = rest.length - 3 :=
          List.length_drop 3 rest
        have hfd : (rest.drop 3).length ≤ n := by
          simp only [List.length_cons] at hf
          omega
        have hrec := length_le_csvReplaceFuel n (rest.drop 3) hfd
        have h20 : jsonSuffix.length = 20 := by decide
        simp only [List.length_append, List.length_cons]
        omega
      · rename_i hpre
        unfold hasCsv at h
        rw [Bool.or_eq_true] at h
        have hrest : hasCsv rest = true := by
          rcases h with h | h
          · exact absurd h hpre
          · exact h
        have hfd : rest.length ≤ n := by
          simp only [List.length_cons] at hf
          omega
        have hrec := ih rest hfd hrest
        simp only [List.length_cons]
        omega

/-- Replacement is the identity on inputs without ".csv". -/
theorem csvReplace_id {l : List Char} (h : hasCsv l = false) :
    csvReplace l = l :=
  csvReplaceFuel_id l.length l h

/-- Replacement changes inputs containing ".csv". -/
theorem csvReplace_ne {l : List Char} (h : hasCsv l = true) :
    csvReplace l ≠ l := by
  intro he
  have hlt := length_lt_csvReplaceFuel l.length l le_rfl h
  rw [show csvReplaceFuel l.length l = csvReplace l from rfl, he] at hlt
  exact lt_irrefl _ hlt

/-- Claim C7 counterexample: for the input path "data.txt" (no ".csv"
occurrence) the derived artifact path equals the input path, so the
artifact is not written to a distinct path — it overwrites the input. -/
theorem c7_output_counterexample : output_file "data.txt" = "data.txt" := by
  decide

/-- Claim C7 (amended): the artifact path is the input path with every
occurrence of ".csv" replaced by "_python_metrics.json"; it differs from
the input path exactly when ".csv" occurs in it (otherwise the artifact
path equals the input path); the artifact holds exactly the fields
accuracy, precision, recall, f1_score, confusion_matrix (with
true_positive, true_negative, false_positive, false_negative),
total_samples, tp, tn, fp, fn. -/
theorem c7_output_artifact_amended :
    (∀ s : String, (hasCsv s.toList = false → output_file s = s)
      ∧ (hasCsv s.toList = true → output_file s ≠ s))
    ∧ metricsDictKeys = ["accuracy", "precision", "recall", "f1_score",
        "confusion_matrix", "total_samples", "tp", "tn", "fp", "fn"]
    ∧ confusionMatrixDictKeys = ["true_positive", "true_negative",
        "false_positive", "false_negative"] := by
  refine ⟨fun s => ⟨fun hno => ?_, fun hyes heq => ?_⟩, rfl, rfl⟩
  · unfold output_file
    rw [csvReplace_id hno]
    exact String.ext rfl
  · exact csvReplace_ne hyes (congrArg String.data heq)

/-- Witness for `c7_output_artifact_amended` at the path "test.csv". -/
theorem c7_output_artifact_witness :
    hasCsv "test.csv".toList = true
    ∧ output_file "test.csv" ≠ "test.csv" :=
  ⟨by decide, (c7_output_artifact_amended.1 "test.csv").2 (by decide)⟩

/-- Claim C8: `main` exits 1 when no input path argument is supplied,
when the input file does not exist, when a required column is absent, and
when the computation raises; it exits 0 on success. -/
theorem c8_exit_codes (argv : List String)
    (fs : String → Option DataFrame) :
    (argv.length < 2 → main_exit argv fs = 1)
    ∧ (∀ path, argv[1]? = some path → fs path = none →
        main_exit argv fs = 1)
    ∧ (∀ path df, argv[1]? = some path → fs path = some df →
        verify_csv_format df = false → main_exit argv fs = 1)
    ∧ (∀ path df e, argv[1]? = some path → fs path = some df →
        verify_csv_format df = true →
        calculate_metrics (datasetOf df) "Yes" = .error e →
        main_exit argv fs = 1)
    ∧ (∀ path df r, argv[1]? = some path → fs path = some df →
        verify_csv_format df = true →
        calculate_metrics (datasetOf df) "Yes" = .ok r →
        main_exit argv fs = 0) := by
  have hlen : ∀ path : String, argv[1]? = some path → 1 < argv.length := by
    intro path hp
    by_contra hnot
    rw [List.getElem?_eq_none (by omega)] at hp
    cases hp
  refine ⟨fun hlt => ?_, fun path hp hfs => ?_,
    fun path df hp hfs hv => ?_, fun path df e hp hfs hv hcm => ?_,
    fun path df r hp hfs hv hcm => ?_⟩
  · unfold main_exit
    rw [if_pos hlt]
  · have := hlen path hp
    simp only [main_exit, hp, hfs]
    rw [if_neg (by omega)]
  · have := hlen path hp
    simp only [main_exit, hp, hfs, hv]
    rw [if_neg (by omega)]
    simp
  · have := hlen path hp
    simp only [main_exit, hp, hfs, hv, hcm]
    rw [if_neg (by omega)]
    simp
  · have := hlen path hp
    simp only [main_exit, hp, hfs, hv, hcm]
    rw [if_neg (by omega)]
    simp

/-- Witness for `c8_exit_codes`: an empty argument vector exits 1, and a
well-formed two-column CSV containing one ("Yes","Yes") row exits 0. -/
theorem c8_exit_codes_witness :
    main_exit [] (fun _ => none) = 1
    ∧ main_exit ["verify_metrics.py", "data.csv"]
        (fun p => if p = "data.csv" then
          some { columns := [("actual_label", ["Yes"]),
                             ("predicted_label", ["Yes"])] }
          else none) = 0 := by
  constructor
  · exact (c8_exit_codes [] _).1 (by decide)
  · have hcm : calculate_metrics
        (datasetOf { columns := [("actual_label", ["Yes"]),
                                 ("predicted_label", ["Yes"])] }) "Yes"
        = .ok { accuracy := .val 1, precision := 1, «recall» := 1,
                f1_score := 1,
                confusion_matrix := { true_positive := 1,
                                      true_negative := 0,
                                      false_positive := 0,
                                      false_negative := 0 },
                total_samples := 1, tp := 1, tn := 0, fp := 0,
                fn := 0 } := by
      have hds : datasetOf { columns := [("actual_label", ["Yes"]),
                                         ("predicted_label", ["Yes"])] }
          = [("Yes", "Yes")] := by decide
      rw [hds]
      norm_num +decide [calculate_metrics, sk_confusion_matrix,
        sk_precision_score, sk_recall_score, sk_f1_score, sk_check_binary,
        sk_accuracy_score, presentLabels, precisionValue, recallValue,
        f1Value, List.countP_cons, List.countP_nil]
    exact (c8_exit_codes _ _).2.2.2.2 "data.csv" _ _ (by decide) (by decide)
      (by decide) hcm
